import Mathlib

/-!
Shallow embedding of `src/streamlit_app.py` (a Streamlit image-classifier demo)
and proofs of the specification's claims about it.

Conventions of the embedding:
* Python byte strings are `List Nat`; Python floats appearing as class
  probabilities are `ℚ`; Python exceptions are `Except PyErr` with
  `PyErr := String` (the message).
* Third-party library calls (PIL decode, the fastai learner, the download
  helper) are modelled as explicit parameters or as small Lean functions that
  follow the library's documented behaviour; the script's own logic is
  translated line by line.
-/

abbrev Bytes := List Nat

abbrev PyErr := String

/-! ### Label content lookup (lines 70-116) -/

/-- Python whitespace characters recognised by `str.strip()` (restricted to the
ASCII whitespace set; the script's configuration strings are ASCII-free-form
Korean text and URLs, none of which use the additional Unicode space
characters that CPython also strips). -/
def isPyWs (c : Char) : Bool :=
  c == ' ' || c == '\t' || c == '\n' || c == '\r' || c == '\x0B' || c == '\x0C'

/-- A string is blank when `x.strip()` is falsy in Python, i.e. every character
is whitespace (this includes the empty string). -/
def strBlank (s : String) : Bool := s.data.all isPyWs

/-- Line 106-107: `pick_top3(lst)` = `[x for x in lst if isinstance(x, str) and x.strip()][:3]`.
The configuration is annotated `dict[str, dict[str, list[str]]]`, so entries
are strings and the `isinstance` guard is always satisfied. -/
def pick_top3 (lst : List String) : List String :=
  (lst.filter (fun x => !(strBlank x))).take 3

/-- One label's configured content: the inner Python dict, whose keys
`"texts"`, `"images"`, `"videos"` may each be present or absent. -/
structure ContentCfg where
  texts : Option (List String)
  images : Option (List String)
  videos : Option (List String)
deriving DecidableEq

/-- Lines 70-81: `CONTENT_BY_LABEL` is initialised as the empty dict `{}`.
The statements at lines 78-81 (`labels[0] : {...}` etc.) are value-less
annotated expressions — Python evaluates them as type annotations with no
assignment, so they insert nothing into the dict. The mapping therefore
stays empty. -/
def CONTENT_BY_LABEL : List (String × ContentCfg) := []

/-- Lines 109-116, generalised over the mapping: `cfg = m.get(label, {})`
followed by `pick_top3(cfg.get(k, []))` for the three content kinds. -/
def getContentIn (m : List (String × ContentCfg)) (label : String) :
    List String × List String × List String :=
  let cfg := (m.lookup label).getD ⟨none, none, none⟩
  (pick_top3 (cfg.texts.getD []),
   pick_top3 (cfg.images.getD []),
   pick_top3 (cfg.videos.getD []))

/-- Lines 109-116: `get_content_for_label(label)` against the shipped
`CONTENT_BY_LABEL`. -/
def get_content_for_label (label : String) : List String × List String × List String :=
  getContentIn CONTENT_BY_LABEL label

/-! ### YouTube id extraction (lines 94-104)

`yt_id_from_url` runs `re.search` with two patterns in order:
`r"(?:v=|/)([0-9A-Za-z_-]{11})(?:\?|&|/|$)"` and
`r"youtu\.be/([0-9A-Za-z_-]{11})"`.
The searcher below reproduces `re.search`'s leftmost-match discipline: start
positions are tried left to right, and at each position the alternatives of
`(?:v=|/)` are tried in order (`{11}` is an exact repetition and the final
group is a single-character lookahead or end, so no other backtracking can
occur). -/

/-- The character class `[0-9A-Za-z_-]`. -/
def isIdChar (c : Char) : Bool := c.isAlphanum || c == '_' || c == '-'

/-- Match `([0-9A-Za-z_-]{11})` at the start of `cs`, returning the group and
the remainder. -/
def grab11 (cs : List Char) : Option (List Char × List Char) :=
  if (cs.take 11).length = 11 ∧ (cs.take 11).all isIdChar = true then
    some (cs.take 11, cs.drop 11)
  else none

/-- Match the trailing `(?:\?|&|/|$)` against the remainder. -/
def termOK (cs : List Char) : Bool :=
  match cs with
  | [] => true
  | c :: _ => c == '?' || c == '&' || c == '/'

/-- Match `([0-9A-Za-z_-]{11})(?:\?|&|/|$)` at the start of `cs`. -/
def idTerm (cs : List Char) : Option (List Char) :=
  match grab11 cs with
  | some (id, rest) => if termOK rest then some id else none
  | none => none

/-- First alternative of pattern 1 at the current position: `v=` then the id. -/
def vEqBranch (cs : List Char) : Option (List Char) :=
  match cs with
  | c1 :: c2 :: rest => if c1 = 'v' ∧ c2 = '=' then idTerm rest else none
  | _ => none

/-- Second alternative of pattern 1 at the current position: `/` then the id. -/
def slashBranch (cs : List Char) : Option (List Char) :=
  match cs with
  | c :: rest => if c = '/' then idTerm rest else none
  | [] => none

/-- Pattern 1 anchored at the current position (alternatives in regex order). -/
def pat1At (cs : List Char) : Option (List Char) :=
  match vEqBranch cs with
  | some id => some id
  | none => slashBranch cs

/-- `re.search` of pattern 1: try each start position left to right. -/
def searchPat1 : List Char → Option (List Char)
  | [] => none
  | c :: rest =>
    match pat1At (c :: rest) with
    | some id => some id
    | none => searchPat1 rest

/-- The literal `youtu.be/` of pattern 2. -/
def ytLead : List Char := ['y', 'o', 'u', 't', 'u', '.', 'b', 'e', '/']

/-- Pattern 2 anchored at the current position. -/
def pat2At (cs : List Char) : Option (List Char) :=
  if cs.take 9 = ytLead then
    match grab11 (cs.drop 9) with
    | some (id, _) => some id
    | none => none
  else none

/-- `re.search` of pattern 2. -/
def searchPat2 : List Char → Option (List Char)
  | [] => none
  | c :: rest =>
    match pat2At (c :: rest) with
    | some id => some id
    | none => searchPat2 rest

/-- Lines 94-100: `yt_id_from_url`. `if not url: return None`, then the two
patterns in order, returning the first match's group. -/
def yt_id_from_url (url : String) : Option String :=
  if url = "" then none
  else
    match searchPat1 url.data with
    | some id => some (String.mk id)
    | none =>
      match searchPat2 url.data with
      | some id => some (String.mk id)
      | none => none

/-- Lines 102-104: `yt_thumb`. -/
def yt_thumb (url : String) : Option String :=
  (yt_id_from_url url).map
    (fun vid => "https://img.youtube.com/vi/" ++ vid ++ "/hqdefault.jpg")

/-- An 11-character run drawn from `[0-9A-Za-z_-]`. -/
def IdRun (id : List Char) : Prop := id.length = 11 ∧ id.all isIdChar = true

/-- Declarative reading of the trailing `(?:\?|&|/|$)` group. -/
def Terminated (post : List Char) : Prop :=
  post = [] ∨ ∃ c rest, post = c :: rest ∧ (c = '?' ∨ c = '&' ∨ c = '/')

/-- Declarative reading of pattern 1 occurring anywhere in the text: some
position is `v=` or `/` followed by an 11-character id and a terminator. -/
def Pattern1Occurs (cs : List Char) : Prop :=
  ∃ pre id post, IdRun id ∧ Terminated post ∧
    (cs = pre ++ 'v' :: '=' :: (id ++ post) ∨ cs = pre ++ '/' :: (id ++ post))

/-- Declarative reading of pattern 2 occurring anywhere in the text. -/
def Pattern2Occurs (cs : List Char) : Prop :=
  ∃ pre id post, IdRun id ∧ cs = pre ++ (ytLead ++ (id ++ post))

/-! ### Image normalizer (lines 88-92)

PIL itself is external; its operations are modelled on the metadata the
claims observe. A `PILImage` carries its channel-layout `mode` (e.g. `"L"`,
`"P"`, `"RGBA"`, `"RGB"`) and the EXIF orientation tag that would be re-read
from the image (`1` = normal/upright; PIL treats a missing tag as `1`). The
pixel contents are not observed by any claim and are abstracted away. -/

structure PILImage where
  mode : String
  orientation : Nat
deriving DecidableEq

/-- Models `ImageOps.exif_transpose`: per the PIL documentation it physically
applies the EXIF orientation to the pixels and removes the orientation tag
from the result, so re-reading the tag yields normal. -/
def exif_transpose (img : PILImage) : PILImage :=
  { mode := img.mode, orientation := 1 }

/-- Models `PIL.Image.convert(m)`: the result has mode `m`; the (already
normalised) orientation metadata is unchanged. -/
def PILImage.convert (img : PILImage) (m : String) : PILImage :=
  { mode := m, orientation := img.orientation }

/-- Number of channels of the PIL modes relevant here. -/
def channelsOfMode (m : String) : Nat :=
  if m = "1" ∨ m = "L" ∨ m = "P" ∨ m = "I" ∨ m = "F" then 1
  else if m = "LA" then 2
  else if m = "RGB" ∨ m = "YCbCr" ∨ m = "HSV" then 3
  else if m = "RGBA" ∨ m = "CMYK" then 4
  else 0

/-- Lines 88-92: `load_pil_from_bytes`. `imageOpen` stands for
`Image.open(BytesIO(b))`, which raises on undecodable bytes; then
`ImageOps.exif_transpose`, then `convert("RGB")` when the mode differs. -/
def load_pil_from_bytes (imageOpen : Bytes → Except PyErr PILImage) (b : Bytes) :
    Except PyErr PILImage :=
  match imageOpen b with
  | .error e => .error e
  | .ok pil0 =>
    let pil1 := exif_transpose pil0
    .ok (if pil1.mode ≠ "RGB" then pil1.convert "RGB" else pil1)

/-! ### Model provisioner (lines 48-59) -/

/-- Observable outcome of one `load_model_from_drive` call: the filesystem
(set of existing paths) afterwards, the URL fetched by `gdown.download` if a
download happened, and the `load_learner` call that was made. -/
structure ProvisionOutcome where
  fs : List String
  downloadedUrl : Option String
  loadedPath : String
  loadedCpuOnly : Bool
deriving DecidableEq

/-- Lines 51-56: `load_model_from_drive(file_id, output_path)`. Download from
`https://drive.google.com/uc?id={file_id}` only when `output_path` does not
exist; then `load_learner(output_path, cpu=True)`. (`@st.cache_resource`
additionally memoises the call per process; the filesystem guard alone
already decides whether a download happens.) -/
def load_model_from_drive (fs : List String) (file_id output_path : String) :
    ProvisionOutcome :=
  if output_path ∈ fs then
    { fs := fs, downloadedUrl := none,
      loadedPath := output_path, loadedCpuOnly := true }
  else
    { fs := output_path :: fs,
      downloadedUrl := some ("https://drive.google.com/uc?id=" ++ file_id),
      loadedPath := output_path, loadedCpuOnly := true }

/-! ### The render pass (lines 121-247)

Streamlit reruns the whole script on every interaction. The dynamic part of
the script (after the cached model load) is embedded as one function of the
interaction's inputs: freshly captured/uploaded bytes (if any), the content
selectbox's current value (if the user has picked one), and the session
state. The loaded learner is a record of its label vocabulary (line 62) and
its `predict` operation (line 149, which also covers the
`PILImage.create(np.array(...))` conversion feeding it). -/

structure Learner where
  vocab : List String
  predict : PILImage → Except PyErr (String × Nat × List ℚ)

/-- Lines 40-43: the per-session state (`img_bytes`, `last_prediction`). -/
structure SessionState where
  img_bytes : Option Bytes
  last_prediction : Option String
deriving DecidableEq

/-- What one successful render pass puts on the page: the prediction banner
(lines 153-161), the sorted probability bars with their highlight flag
(lines 166-186), the selected info label and its content panel (lines
189-245), or the idle prompt (line 247). -/
structure RenderOutput where
  banner : Option String
  probBars : List (String × ℚ × Bool)
  infoLabel : Option String
  contentPanel : Option (List String × List String × List String)
  idleNotice : Bool
deriving DecidableEq

/-- Result of running the script body once: the session state afterwards
(mutations before a raise persist), whether the input preview was already
rendered (line 146 runs before prediction), whether `learner.predict` was
invoked, and either the page contents or the exception that escaped. -/
structure RenderResult where
  state : SessionState
  shownInput : Option PILImage
  predictCalled : Bool
  outcome : Except PyErr RenderOutput

/-- Lines 135-136: `if new_bytes: st.session_state.img_bytes = new_bytes`
(Python truthiness: empty byte strings are not stored). -/
def applyNewBytes (newBytes : Option Bytes) (s : SessionState) : SessionState :=
  match newBytes with
  | some b => if b = [] then s else { img_bytes := some b, last_prediction := s.last_prediction }
  | none => s

/-- Lines 168-169 comprehension body: `(labels[i], float(probs[i]))` for
`i in range(len(labels))`. -/
def probPairs (labels : List String) (probs : List ℚ) : List (String × ℚ) :=
  (List.range labels.length).map (fun i => (labels.getD i "", probs.getD i 0))

/-- Lines 168-171 with Python's bounds check: `probs[i]` raises `IndexError`
when the probability vector is shorter than the label list. -/
def buildProbPairs (labels : List String) (probs : List ℚ) :
    Except PyErr (List (String × ℚ)) :=
  if labels.length ≤ probs.length then .ok (probPairs labels probs)
  else .error "IndexError"

/-- Lines 168-171: `sorted(pairs, key=lambda x: x[1], reverse=True)`.
CPython's sort is stable; with `reverse=True` it keeps tied elements in
their original order, which is exactly a stable merge sort under the
comparison "first component's key is ≥ the second's". -/
def sortProbsDesc (l : List (String × ℚ)) : List (String × ℚ) :=
  l.mergeSort (fun a b => decide (b.2 ≤ a.2))

/-- Line 191: `labels.index(last_prediction) if last_prediction in labels else 0`. -/
def defaultIdxFor (labels : List String) (lastPred : Option String) : Nat :=
  match lastPred with
  | some lp => if lp ∈ labels then labels.indexOf lp else 0
  | none => 0

/-- Line 192: the selectbox returns the user's current choice when it is one
of the options, and otherwise (fresh widget, or stale choice) the option at
`index=default_idx`. -/
def resolveInfoLabel (labels : List String) (sel : Option String)
    (lastPred : Option String) : Option String :=
  match sel with
  | some l => if l ∈ labels then some l else labels[defaultIdxFor labels lastPred]?
  | none => labels[defaultIdxFor labels lastPred]?

/-- Line 194 applied to the selectbox value (`None` only when the label list
is empty, in which case `.get(None, {})` still yields empty content). -/
def contentFor (infoLabel : Option String) : List String × List String × List String :=
  match infoLabel with
  | some l => get_content_for_label l
  | none => ([], [], [])

/-- Lines 121-247: one evaluation of the script body. The order mirrors the
source: store new input bytes (135-136); if bytes are present, decode
(144), show the preview (146), predict and write `last_prediction`
(148-150), render banner (153-161), probability bars (166-186) and the
content panel for the selected label (189-194); otherwise render the idle
prompt (247). An exception at any step aborts the rest of the pass. -/
def renderFrame (imageOpen : Bytes → Except PyErr PILImage) (learner : Learner)
    (newBytes : Option Bytes) (sel : Option String) (s : SessionState) :
    RenderResult :=
  let labels := learner.vocab
  let s1 := applyNewBytes newBytes s
  match s1.img_bytes with
  | none =>
    { state := s1, shownInput := none, predictCalled := false,
      outcome := .ok { banner := none, probBars := [], infoLabel := none,
                       contentPanel := none, idleNotice := true } }
  | some b =>
    match load_pil_from_bytes imageOpen b with
    | .error e =>
      { state := s1, shownInput := none, predictCalled := false, outcome := .error e }
    | .ok pil =>
      match learner.predict pil with
      | .error e =>
        { state := s1, shownInput := some pil, predictCalled := true, outcome := .error e }
      | .ok (pred, _idx, probs) =>
        let s2 : SessionState := { img_bytes := s1.img_bytes, last_prediction := some pred }
        match buildProbPairs labels probs with
        | .error e =>
          { state := s2, shownInput := some pil, predictCalled := true, outcome := .error e }
        | .ok pairs =>
          let bars := (sortProbsDesc pairs).map
            (fun lp => (lp.1, lp.2 * 100, some lp.1 == s2.last_prediction))
          let infoLabel := resolveInfoLabel labels sel s2.last_prediction
          { state := s2, shownInput := some pil, predictCalled := true,
            outcome := .ok { banner := s2.last_prediction, probBars := bars,
                             infoLabel := infoLabel,
                             contentPanel := some (contentFor infoLabel),
                             idleNotice := false } }

/-- The page as the user sees it after the framework has run the script. -/
structure PageView where
  state : SessionState
  shownInput : Option PILImage
  predictCalled : Bool
  displayedError : Option PyErr
  page : Option RenderOutput

/-- One render pass as mediated by the hosting framework's script runner,
per its documented behaviour: an exception that propagates out of the script
is caught by the runner and rendered as an error element on the page; the
session and its state survive and the next interaction reruns the script. -/
def runRenderPass (imageOpen : Bytes → Except PyErr PILImage) (learner : Learner)
    (newBytes : Option Bytes) (sel : Option String) (s : SessionState) : PageView :=
  let r := renderFrame imageOpen learner newBytes sel s
  match r.outcome with
  | .ok out =>
    { state := r.state, shownInput := r.shownInput, predictCalled := r.predictCalled,
      displayedError := none, page := some out }
  | .error e =>
    { state := r.state, shownInput := r.shownInput, predictCalled := r.predictCalled,
      displayedError := some e, page := none }

/-! ### Concrete instances used by witnesses and the counterexample -/

/-- A decoded image already in RGB with normal orientation. -/
def exImage : PILImage := { mode := "RGB", orientation := 1 }

/-- A decoder that succeeds on any byte buffer, yielding `exImage`. -/
def exOpen : Bytes → Except PyErr PILImage := fun _ => .ok exImage

/-- A decoder modelling undecodable bytes: `Image.open` raises. -/
def exBadOpen : Bytes → Except PyErr PILImage :=
  fun _ => .error "UnidentifiedImageError: cannot identify image file"

/-- A decoder yielding a palette-mode image with a rotated EXIF tag. -/
def exPalOpen : Bytes → Except PyErr PILImage := fun _ => .ok { mode := "P", orientation := 6 }

/-- A two-class learner whose prediction deterministically returns class A. -/
def exLearner : Learner := { vocab := ["A", "B"], predict := fun _ => .ok ("A", 0, [1, 0]) }

/-- A learner whose predict operation always raises. -/
def exFailLearner : Learner :=
  { vocab := ["A", "B"], predict := fun _ => .error "RuntimeError: inference failed" }

/-- A Ready-state session: input bytes stored, a prediction already made. -/
def exReadyState : SessionState := { img_bytes := some [7], last_prediction := some "A" }

/-- A fresh Idle-state session. -/
def exIdleState : SessionState := { img_bytes := none, last_prediction := none }

/-- A sample content configuration entry. -/
def exCfg : ContentCfg := { texts := some ["a"], images := none, videos := none }

/-! ### Helper lemmas about the pattern searchers -/

theorem termOK_of_terminated {post : List Char} (h : Terminated post) : termOK post = true := by
  rcases h with rfl | ⟨c, rest, rfl, hc⟩
  · rfl
  · rcases hc with rfl | rfl | rfl <;> rfl

theorem terminated_of_termOK {post : List Char} (h : termOK post = true) : Terminated post := by
  cases post with
  | nil => exact Or.inl rfl
  | cons c rest =>
    simp only [termOK, Bool.or_eq_true, beq_iff_eq] at h
    exact Or.inr ⟨c, rest, rfl, by tauto⟩

theorem grab11_append {id : List Char} (post : List Char) (hid : IdRun id) :
    grab11 (id ++ post) = some (id, post) := by
  obtain ⟨hlen, hall⟩ := hid
  have ht : (id ++ post).take 11 = id := by rw [← hlen]; exact List.take_left id post
  have hd : (id ++ post).drop 11 = post := by rw [← hlen]; exact List.drop_left id post
  simp [grab11, ht, hd, hlen, hall]

theorem grab11_sound {cs id rest : List Char} (h : grab11 cs = some (id, rest)) :
    cs = id ++ rest ∧ IdRun id := by
  unfold grab11 at h
  split at h
  · next hcond =>
    have hp := Option.some_inj.mp h
    have h1 : cs.take 11 = id := congrArg Prod.fst hp
    have h2 : cs.drop 11 = rest := congrArg Prod.snd hp
    subst h1; subst h2
    exact ⟨(List.take_append_drop 11 cs).symm, hcond⟩
  · cases h

theorem idTerm_append {id : List Char} (post : List Char) (hid : IdRun id)
    (hpost : Terminated post) : idTerm (id ++ post) = some id := by
  unfold idTerm
  rw [grab11_append post hid]
  simp [termOK_of_terminated hpost]

theorem idTerm_sound {cs id : List Char} (h : idTerm cs = some id) :
    ∃ post, cs = id ++ post ∧ IdRun id ∧ Terminated post := by
  cases hg : grab11 cs with
  | none => simp [idTerm, hg] at h
  | some pr =>
    obtain ⟨id0, rest⟩ := pr
    by_cases ht : termOK rest = true
    · simp [idTerm, hg, ht] at h
      subst h
      obtain ⟨heq, hid⟩ := grab11_sound hg
      exact ⟨rest, heq, hid, terminated_of_termOK ht⟩
    · simp [idTerm, hg, ht] at h

theorem vEqBranch_sound {cs id : List Char} (h : vEqBranch cs = some id) :
    ∃ post, IdRun id ∧ Terminated post ∧ cs = 'v' :: '=' :: (id ++ post) := by
  cases cs with
  | nil => simp [vEqBranch] at h
  | cons c1 tail =>
    cases tail with
    | nil => simp [vEqBranch] at h
    | cons c2 rest =>
      by_cases hc : c1 = 'v' ∧ c2 = '='
      · obtain ⟨rfl, rfl⟩ := hc
        have h2 : idTerm rest = some id := by simpa [vEqBranch] using h
        obtain ⟨post, heq, hid, hterm⟩ := idTerm_sound h2
        exact ⟨post, hid, hterm, by rw [heq]⟩
      · simp [vEqBranch, hc] at h

theorem slashBranch_sound {cs id : List Char} (h : slashBranch cs = some id) :
    ∃ post, IdRun id ∧ Terminated post ∧ cs = '/' :: (id ++ post) := by
  cases cs with
  | nil => simp [slashBranch] at h
  | cons c rest =>
    by_cases hc : c = '/'
    · subst hc
      have h2 : idTerm rest = some id := by simpa [slashBranch] using h
      obtain ⟨post, heq, hid, hterm⟩ := idTerm_sound h2
      exact ⟨post, hid, hterm, by rw [heq]⟩
    · simp [slashBranch, hc] at h

theorem pat1At_sound {cs id : List Char} (h : pat1At cs = some id) :
    ∃ post, IdRun id ∧ Terminated post ∧
      (cs = 'v' :: '=' :: (id ++ post) ∨ cs = '/' :: (id ++ post)) := by
  unfold pat1At at h
  cases hv : vEqBranch cs with
  | some id0 =>
    rw [hv] at h
    obtain rfl := Option.some_inj.mp h
    obtain ⟨post, hid, hterm, heq⟩ := vEqBranch_sound hv
    exact ⟨post, hid, hterm, Or.inl heq⟩
  | none =>
    rw [hv] at h
    obtain ⟨post, hid, hterm, heq⟩ := slashBranch_sound h
    exact ⟨post, hid, hterm, Or.inr heq⟩

theorem pat1At_vEq {id : List Char} (post : List Char) (hid : IdRun id)
    (hpost : Terminated post) : pat1At ('v' :: '=' :: (id ++ post)) = some id := by
  unfold pat1At vEqBranch
  simp [idTerm_append post hid hpost]

theorem pat1At_slash {id : List Char} (post : List Char) (hid : IdRun id)
    (hpost : Terminated post) : (pat1At ('/' :: (id ++ post))).isSome = true := by
  obtain ⟨hlen, hall⟩ := hid
  cases id with
  | nil => simp at hlen
  | cons a id2 =>
    show (pat1At ('/' :: a :: (id2 ++ post))).isSome = true
    have hv : vEqBranch ('/' :: a :: (id2 ++ post)) = none := by
      simp only [vEqBranch]
      rw [if_neg]
      rintro ⟨hx, -⟩
      exact absurd hx (by decide)
    have hs : slashBranch ('/' :: a :: (id2 ++ post)) = some (a :: id2) := by
      simp only [slashBranch, if_true]
      exact idTerm_append post ⟨hlen, hall⟩ hpost
    simp [pat1At, hv, hs]

theorem searchPat1_sound {cs id : List Char} (h : searchPat1 cs = some id) :
    Pattern1Occurs cs := by
  induction cs with
  | nil => simp [searchPat1] at h
  | cons c rest ih =>
    rw [searchPat1] at h
    cases hp : pat1At (c :: rest) with
    | some id0 =>
      rw [hp] at h
      obtain rfl := Option.some_inj.mp h
      obtain ⟨post, hid, hterm, hor⟩ := pat1At_sound hp
      refine ⟨[], id0, post, hid, hterm, ?_⟩
      simpa using hor
    | none =>
      rw [hp] at h
      obtain ⟨pre, id1, post, hid, hterm, hor⟩ := ih h
      refine ⟨c :: pre, id1, post, hid, hterm, ?_⟩
      rcases hor with h1 | h1
      · exact Or.inl (by rw [List.cons_append, ← h1])
      · exact Or.inr (by rw [List.cons_append, ← h1])

theorem searchPat1_append_isSome (pre tail : List Char)
    (h : (pat1At tail).isSome = true) : (searchPat1 (pre ++ tail)).isSome = true := by
  induction pre with
  | nil =>
    cases tail with
    | nil => simp [pat1At, vEqBranch, slashBranch] at h
    | cons c rest =>
      cases hp : pat1At (c :: rest) with
      | some id => simp [searchPat1, hp]
      | none => rw [hp] at h; simp at h
  | cons p pre2 ih =>
    rw [List.cons_append, searchPat1]
    cases hp : pat1At (p :: (pre2 ++ tail)) with
    | some id => rfl
    | none => exact ih

theorem searchPat1_complete {cs : List Char} (h : Pattern1Occurs cs) :
    (searchPat1 cs).isSome = true := by
  obtain ⟨pre, id, post, hid, hterm, hor⟩ := h
  rcases hor with rfl | rfl
  · exact searchPat1_append_isSome pre _ (by rw [pat1At_vEq post hid hterm]; rfl)
  · exact searchPat1_append_isSome pre _ (pat1At_slash post hid hterm)

theorem pat2At_sound {cs id : List Char} (h : pat2At cs = some id) :
    ∃ post, IdRun id ∧ cs = ytLead ++ (id ++ post) := by
  by_cases hcond : cs.take 9 = ytLead
  · cases hg : grab11 (cs.drop 9) with
    | none => simp [pat2At, hcond, hg] at h
    | some pr =>
      obtain ⟨id0, rest⟩ := pr
      simp [pat2At, hcond, hg] at h
      subst h
      obtain ⟨heq, hid⟩ := grab11_sound hg
      refine ⟨rest, hid, ?_⟩
      conv_lhs => rw [← List.take_append_drop 9 cs]
      rw [hcond, heq]
  · simp [pat2At, hcond] at h

theorem pat2At_append {id : List Char} (post : List Char) (hid : IdRun id) :
    (pat2At (ytLead ++ (id ++ post))).isSome = true := by
  have ht : (ytLead ++ (id ++ post)).take 9 = ytLead := List.take_left ytLead _
  have hd : (ytLead ++ (id ++ post)).drop 9 = id ++ post := List.drop_left ytLead _
  simp [pat2At, ht, hd, grab11_append post hid]

theorem searchPat2_sound {cs id : List Char} (h : searchPat2 cs = some id) :
    Pattern2Occurs cs := by
  induction cs with
  | nil => simp [searchPat2] at h
  | cons c rest ih =>
    rw [searchPat2] at h
    cases hp : pat2At (c :: rest) with
    | some id0 =>
      rw [hp] at h
      obtain rfl := Option.some_inj.mp h
      obtain ⟨post, hid, heq⟩ := pat2At_sound hp
      exact ⟨[], id0, post, hid, by simpa using heq⟩
    | none =>
      rw [hp] at h
      obtain ⟨pre, id1, post, hid, heq⟩ := ih h
      exact ⟨c :: pre, id1, post, hid, by rw [List.cons_append, ← heq]⟩

theorem searchPat2_append_isSome (pre tail : List Char)
    (h : (pat2At tail).isSome = true) : (searchPat2 (pre ++ tail)).isSome = true := by
  induction pre with
  | nil =>
    cases tail with
    | nil => simp [pat2At, ytLead] at h
    | cons c rest =>
      cases hp : pat2At (c :: rest) with
      | some id => simp [searchPat2, hp]
      | none => rw [hp] at h; simp at h
  | cons p pre2 ih =>
    rw [List.cons_append, searchPat2]
    cases hp : pat2At (p :: (pre2 ++ tail)) with
    | some id => rfl
    | none => exact ih

theorem searchPat2_complete {cs : List Char} (h : Pattern2Occurs cs) :
    (searchPat2 cs).isSome = true := by
  obtain ⟨pre, id, post, hid, rfl⟩ := h
  exact searchPat2_append_isSome pre _ (pat2At_append post hid)

/-! ### Helper lemma about a successful render pass -/

theorem renderFrame_ready_ok
    (imageOpen : Bytes → Except PyErr PILImage) (L : Learner) (sel : Option String)
    (s : SessionState) (b : Bytes) (pil : PILImage) (pred : String) (k : Nat)
    (probs : List ℚ)
    (h1 : s.img_bytes = some b)
    (h2 : load_pil_from_bytes imageOpen b = .ok pil)
    (h3 : L.predict pil = .ok (pred, k, probs))
    (h4 : L.vocab.length ≤ probs.length) :
    renderFrame imageOpen L none sel s =
      { state := { img_bytes := some b, last_prediction := some pred },
        shownInput := some pil,
        predictCalled := true,
        outcome := .ok
          { banner := some pred,
            probBars := (sortProbsDesc (probPairs L.vocab probs)).map
              (fun lp => (lp.1, lp.2 * 100, some lp.1 == some pred)),
            infoLabel := resolveInfoLabel L.vocab sel (some pred),
            contentPanel := some (contentFor (resolveInfoLabel L.vocab sel (some pred))),
            idleNotice := false } } := by
  unfold renderFrame
  simp [applyNewBytes, h1, h2, h3, buildProbPairs, h4]

/-! ### The claims -/

/-- Claim C1, amended. As written, the claim asserts that reselecting a
content-panel label never triggers a new invocation of predict; in the code
the whole script reruns and line 149 invokes predict on every render pass in
the Ready state, reselection included. What does hold: in a Ready state with
a prediction already made, a second render pass with any (re)selected label
leaves the session state, the prediction banner and the probability bars
unchanged (the stored bytes are unchanged and predict is a function of the
decoded image), and only the content panel follows the newly selected label
— but predict is invoked again. -/
theorem c1_amended_reselect
    (imageOpen : Bytes → Except PyErr PILImage) (L : Learner) (s : SessionState)
    (b : Bytes) (pil : PILImage) (pred : String) (k : Nat) (probs : List ℚ)
    (sel1 sel2 : Option String)
    (h1 : s.img_bytes = some b)
    (h2 : load_pil_from_bytes imageOpen b = .ok pil)
    (h3 : L.predict pil = .ok (pred, k, probs))
    (h4 : L.vocab.length ≤ probs.length) :
    ∃ o1 o2 : RenderOutput,
      (renderFrame imageOpen L none sel1 s).outcome = .ok o1 ∧
      (renderFrame imageOpen L none sel2 (renderFrame imageOpen L none sel1 s).state).outcome = .ok o2 ∧
      (renderFrame imageOpen L none sel2 (renderFrame imageOpen L none sel1 s).state).state =
        (renderFrame imageOpen L none sel1 s).state ∧
      (renderFrame imageOpen L none sel2 (renderFrame imageOpen L none sel1 s).state).predictCalled = true ∧
      o2.banner = o1.banner ∧
      o2.probBars = o1.probBars ∧
      o2.infoLabel = resolveInfoLabel L.vocab sel2 (some pred) ∧
      o2.contentPanel = some (contentFor (resolveInfoLabel L.vocab sel2 (some pred))) := by
  have e1 := renderFrame_ready_ok imageOpen L sel1 s b pil pred k probs h1 h2 h3 h4
  have hst : (renderFrame imageOpen L none sel1 s).state =
      { img_bytes := some b, last_prediction := some pred } := by rw [e1]
  have e2 := renderFrame_ready_ok imageOpen L sel2
    ({ img_bytes := some b, last_prediction := some pred } : SessionState)
    b pil pred k probs rfl h2 h3 h4
  rw [hst, e1, e2]
  exact ⟨_, _, rfl, rfl, rfl, rfl, rfl, rfl, rfl, rfl⟩

/-- Claim C1, counterexample to the claim as stated: in a Ready state whose
stored prediction is A, a render pass whose content-panel selection is the
different label B still invokes predict (`predictCalled = true`), refuting
that reselection "never triggers a new invocation of the classifier
predict operation". -/
theorem c1_counterexample :
    (renderFrame exOpen exLearner none (some "B") exReadyState).predictCalled = true ∧
    (renderFrame exOpen exLearner none (some "B") exReadyState).state = exReadyState ∧
    exReadyState.img_bytes = some [7] ∧
    exReadyState.last_prediction = some "A" ∧ ("B" : String) ≠ "A" :=
  ⟨rfl, rfl, rfl, rfl, by decide⟩

/-- Claim C1, witness: the amended theorem applied to the concrete
two-label learner, with the first pass using the default selection and the
second pass reselecting label B. -/
theorem c1_witness :
    ∃ o1 o2 : RenderOutput,
      (renderFrame exOpen exLearner none none exReadyState).outcome = .ok o1 ∧
      (renderFrame exOpen exLearner none (some "B")
        (renderFrame exOpen exLearner none none exReadyState).state).outcome = .ok o2 ∧
      (renderFrame exOpen exLearner none (some "B")
        (renderFrame exOpen exLearner none none exReadyState).state).state =
        (renderFrame exOpen exLearner none none exReadyState).state ∧
      (renderFrame exOpen exLearner none (some "B")
        (renderFrame exOpen exLearner none none exReadyState).state).predictCalled = true ∧
      o2.banner = o1.banner ∧
      o2.probBars = o1.probBars ∧
      o2.infoLabel = resolveInfoLabel exLearner.vocab (some "B") (some "A") ∧
      o2.contentPanel = some (contentFor (resolveInfoLabel exLearner.vocab (some "B") (some "A"))) :=
  c1_amended_reselect exOpen exLearner exReadyState [7] exImage "A" 0 [1, 0]
    none (some "B") rfl rfl rfl (by decide)

/-- Claim C2: for malformed/undecodable bytes, and for any exception during
array conversion or inference, the exception is displayed to the user and
the session survives (the script itself has no handler; the runner renders
the escaping exception, as modelled by `runRenderPass`), and processing
halts for that request: no page output is produced, and on a decode failure
predict is never invoked; in both cases `last_prediction` keeps its prior
value. -/
theorem c2_exceptions_displayed_and_halt
    (imageOpen : Bytes → Except PyErr PILImage) (L : Learner) (s : SessionState)
    (b : Bytes) (sel : Option String) (hb : b ≠ []) :
    (∀ e, load_pil_from_bytes imageOpen b = .error e →
      (runRenderPass imageOpen L (some b) sel s).displayedError = some e ∧
      (runRenderPass imageOpen L (some b) sel s).page = none ∧
      (runRenderPass imageOpen L (some b) sel s).predictCalled = false ∧
      (runRenderPass imageOpen L (some b) sel s).shownInput = none ∧
      (runRenderPass imageOpen L (some b) sel s).state =
        { img_bytes := some b, last_prediction := s.last_prediction }) ∧
    (∀ pil e, load_pil_from_bytes imageOpen b = .ok pil → L.predict pil = .error e →
      (runRenderPass imageOpen L (some b) sel s).displayedError = some e ∧
      (runRenderPass imageOpen L (some b) sel s).page = none ∧
      (runRenderPass imageOpen L (some b) sel s).predictCalled = true ∧
      (runRenderPass imageOpen L (some b) sel s).state =
        { img_bytes := some b, last_prediction := s.last_prediction }) := by
  constructor
  · intro e he
    simp [runRenderPass, renderFrame, applyNewBytes, hb, he]
  · intro pil e hok hpred
    simp [runRenderPass, renderFrame, applyNewBytes, hb, hok, hpred]

/-- Claim C2, witness: uploading bytes that the decoder rejects displays the
decode error, renders no page output, never invokes predict, and leaves
`last_prediction` untouched. -/
theorem c2_witness :
    (runRenderPass exBadOpen exLearner (some [3]) none exIdleState).displayedError =
      some "UnidentifiedImageError: cannot identify image file" ∧
    (runRenderPass exBadOpen exLearner (some [3]) none exIdleState).page = none ∧
    (runRenderPass exBadOpen exLearner (some [3]) none exIdleState).predictCalled = false ∧
    (runRenderPass exBadOpen exLearner (some [3]) none exIdleState).shownInput = none ∧
    (runRenderPass exBadOpen exLearner (some [3]) none exIdleState).state =
      { img_bytes := some [3], last_prediction := none } :=
  (c2_exceptions_displayed_and_halt exBadOpen exLearner exIdleState [3] none (by decide)).1
    "UnidentifiedImageError: cannot identify image file" rfl

/-- Claim C3: under the shipped configuration the mapping is empty (the
statements at lines 78-81 are value-less annotated expressions that insert
nothing), so `get_content_for_label` returns three empty lists for every
label string. -/
theorem c3_shipped_content_mapping_is_empty :
    CONTENT_BY_LABEL = [] ∧ ∀ label : String, get_content_for_label label = ([], [], []) :=
  ⟨rfl, fun _ => rfl⟩

/-- Claim C4: on `https://youtu.be/dQw4w9WgXcQ` the extractor returns the
11-character id `dQw4w9WgXcQ` and the thumbnail URL
`https://img.youtube.com/vi/dQw4w9WgXcQ/hqdefault.jpg`; and for every URL in
which neither regex pattern occurs (no recognizable 11-character identifier),
`yt_id_from_url` returns no identifier and `yt_thumb` no thumbnail. -/
theorem c4_yt_extraction :
    (yt_id_from_url "https://youtu.be/dQw4w9WgXcQ" = some "dQw4w9WgXcQ" ∧
     yt_thumb "https://youtu.be/dQw4w9WgXcQ" =
       some "https://img.youtube.com/vi/dQw4w9WgXcQ/hqdefault.jpg") ∧
    ∀ url : String, ¬ (Pattern1Occurs url.data ∨ Pattern2Occurs url.data) →
      yt_id_from_url url = none ∧ yt_thumb url = none := by
  constructor
  · exact ⟨by decide, by decide⟩
  · intro url h
    have hid : yt_id_from_url url = none := by
      by_cases hurl : url = ""
      · simp [yt_id_from_url, hurl]
      · cases hp1 : searchPat1 url.data with
        | some id => exact absurd (Or.inl (searchPat1_sound hp1)) h
        | none =>
          cases hp2 : searchPat2 url.data with
          | some id => exact absurd (Or.inr (searchPat2_sound hp2)) h
          | none => simp [yt_id_from_url, hurl, hp1, hp2]
    exact ⟨hid, by simp [yt_thumb, hid]⟩

/-- Claim C4, witness: the URL `hello` contains no identifier pattern (shown
via the completeness lemmas for the two searchers), so extraction returns
none and no thumbnail is produced. -/
theorem c4_witness : yt_id_from_url "hello" = none ∧ yt_thumb "hello" = none := by
  refine c4_yt_extraction.2 "hello" ?_
  rintro (h1 | h2)
  · have hs := searchPat1_complete h1
    rw [show searchPat1 "hello".data = none from rfl] at hs
    simp at hs
  · have hs := searchPat2_complete h2
    rw [show searchPat2 "hello".data = none from rfl] at hs
    simp at hs

/-- Claim C5: `pick_top3` (applied by `get_content_for_label` to each of the
three content kinds) keeps at most 3 entries, keeps only entries that are
not empty and not whitespace-only, and returns a subsequence of the input
(the retained entries keep their original order). -/
theorem c5_pick_top3_filters_truncates_keeps_order :
    ∀ lst : List String,
      (pick_top3 lst).length ≤ 3 ∧
      (pick_top3 lst).Sublist lst ∧
      (pick_top3 lst).all (fun x => !(strBlank x)) = true := by
  intro lst
  refine ⟨?_, ?_, ?_⟩
  · unfold pick_top3
    rw [List.length_take]
    exact min_le_left _ _
  · exact (List.take_sublist _ _).trans (List.filter_sublist _)
  · rw [List.all_eq_true]
    intro x hx
    have hx2 : x ∈ lst.filter (fun x => !(strBlank x)) := (List.take_sublist 3 _).subset hx
    exact (List.mem_filter.mp hx2).2

/-- Claim C6: for every label absent from the mapping (in particular from
the shipped empty `CONTENT_BY_LABEL`), the lookup returns the triple of
empty lists; the function is total, so no error is ever raised. -/
theorem c6_absent_label_empty_content
    (m : List (String × ContentCfg)) (label : String)
    (h : m.lookup label = none) :
    getContentIn m label = ([], [], []) ∧ get_content_for_label label = ([], [], []) := by
  constructor
  · simp [getContentIn, h, pick_top3]
  · rfl

/-- Claim C6, witness: the label B is absent from a one-entry mapping for
label A, and the lookup yields three empty lists. -/
theorem c6_witness :
    getContentIn [("A", exCfg)] "B" = ([], [], []) ∧
    get_content_for_label "B" = ([], [], []) :=
  c6_absent_label_empty_content [("A", exCfg)] "B" rfl

/-- Claim C7: when predict raises during a render pass, `last_prediction`
is not written — the whole session state is exactly as before the pass. -/
theorem c7_failed_prediction_writes_no_last_prediction
    (imageOpen : Bytes → Except PyErr PILImage) (L : Learner) (s : SessionState)
    (b : Bytes) (pil : PILImage) (e : PyErr) (sel : Option String)
    (h1 : s.img_bytes = some b)
    (h2 : load_pil_from_bytes imageOpen b = .ok pil)
    (h3 : L.predict pil = .error e) :
    (renderFrame imageOpen L none sel s).state.last_prediction = s.last_prediction ∧
    (renderFrame imageOpen L none sel s).state = s := by
  constructor <;> simp [renderFrame, applyNewBytes, h1, h2, h3]

/-- Claim C7, witness: a failing learner leaves the prior prediction A in
the session state. -/
theorem c7_witness :
    (renderFrame exOpen exFailLearner none none exReadyState).state.last_prediction = some "A" ∧
    (renderFrame exOpen exFailLearner none none exReadyState).state = exReadyState :=
  c7_failed_prediction_writes_no_last_prediction exOpen exFailLearner exReadyState
    [7] exImage "RuntimeError: inference failed" none rfl rfl rfl

/-- Claim C8: the descending sort of (label, probability) pairs used for the
probability bars is idempotent — on a list already sorted by probability
descending it is the identity. -/
theorem c8_sorted_desc_idempotent (l : List (String × ℚ))
    (h : l.Pairwise (fun a b => b.2 ≤ a.2)) : sortProbsDesc l = l := by
  apply List.mergeSort_of_sorted
  exact h.imp (fun hab => decide_eq_true hab)

/-- Claim C8, witness: a concrete already-descending list is reproduced
unchanged. -/
theorem c8_witness :
    sortProbsDesc [("A", (1 : ℚ)), ("B", 0)] = [("A", 1), ("B", 0)] :=
  c8_sorted_desc_idempotent _ (by decide)

/-- Claim C9: every image that `load_pil_from_bytes` returns is in RGB mode
(exactly 3 channels) and carries the normal orientation tag — the EXIF
orientation has been physically applied — whatever the source channel
layout (grayscale, RGBA, palette, ...) and orientation were. -/
theorem c9_normalizer_rgb_upright
    (imageOpen : Bytes → Except PyErr PILImage) (b : Bytes) (img : PILImage)
    (h : load_pil_from_bytes imageOpen b = .ok img) :
    img.mode = "RGB" ∧ channelsOfMode img.mode = 3 ∧ img.orientation = 1 := by
  cases ho : imageOpen b with
  | error e => simp [load_pil_from_bytes, ho] at h
  | ok pil0 =>
    simp only [load_pil_from_bytes, ho, Except.ok.injEq] at h
    by_cases hm : (exif_transpose pil0).mode ≠ "RGB"
    · rw [if_pos hm] at h
      subst h
      refine ⟨rfl, ?_, rfl⟩
      show channelsOfMode "RGB" = 3
      decide
    · rw [if_neg hm] at h
      subst h
      push_neg at hm
      refine ⟨hm, ?_, rfl⟩
      rw [hm]
      decide

/-- Claim C9, witness: a palette-mode source with a rotated EXIF tag decodes
to an RGB, upright image. -/
theorem c9_witness :
    (PILImage.mk "RGB" 1).mode = "RGB" ∧
    channelsOfMode (PILImage.mk "RGB" 1).mode = 3 ∧
    (PILImage.mk "RGB" 1).orientation = 1 :=
  c9_normalizer_rgb_upright exPalOpen [2] (PILImage.mk "RGB" 1) rfl

/-- Claim C10: the provisioner downloads exactly when the local path does
not yet exist (so at most once per filesystem state: the path exists
afterwards and a repeat call downloads nothing), always from the
drive-by-id URL, and always loads the learner from that path forcing
CPU-only execution. -/
theorem c10_provisioner_download_once_cpu_only
    (fs : List String) (file_id output_path : String) :
    (load_model_from_drive fs file_id output_path).downloadedUrl =
      (if output_path ∈ fs then none
       else some ("https://drive.google.com/uc?id=" ++ file_id)) ∧
    (load_model_from_drive fs file_id output_path).loadedCpuOnly = true ∧
    (load_model_from_drive fs file_id output_path).loadedPath = output_path ∧
    output_path ∈ (load_model_from_drive fs file_id output_path).fs ∧
    (load_model_from_drive (load_model_from_drive fs file_id output_path).fs
        file_id output_path).downloadedUrl = none := by
  by_cases h : output_path ∈ fs <;> simp [load_model_from_drive, h]
